import Mathlib

/-!
Verification of the myTeach sandboxed execution and grading engine.

The definitions below are a shallow embedding of the Python source:

* app/sandbox/validators/test_validator.py — validate_test_cases,
  validate_single_test, calculate_score;
* app/services/grading_service.py — grade_exercise, generate_feedback;
* app/sandbox/subprocess_runner.py — SubprocessSandbox (execute_code,
  the python and bash execution paths);
* app/sandbox/docker_runner.py — DockerSandbox.execute_code.

Text is modelled as lists of characters; Python f-strings become explicit
list concatenations.  Exceptions raised and caught inside the source are
modelled with Except; interactions with the operating system (process runs,
Docker API calls) are modelled by parameterising each backend over an
outcome value describing what the environment did.  The configuration
values SANDBOX_TIMEOUT and MAX_OUTPUT_SIZE (app/config.py, not part of the
sources here; the spec only requires safe non-zero defaults) are passed as
explicit parameters.  Python float arithmetic in calculate_score is
modelled exactly by round-to-nearest-even at 53 significant bits on exact
rationals (IEEE binary64 in the normal range, which covers every value the
score computation can produce).
-/

/-- Text, modelled as a list of characters. -/
abbrev Str := List Char

/-- Coerce a Lean string literal to the character-list model. -/
def txt (x : String) : Str := x.data

/-- Decimal rendering of a natural number, as Python str(n) produces. -/
def natRepr (n : Nat) : Str := (Nat.repr n).data

/-- Characters removed by Python str.strip (ASCII whitespace). -/
def isPySpace (c : Char) : Bool :=
  c == ' ' || c == '\t' || c == '\n' || c == '\x0b' || c == '\x0c' || c == '\r'

/-- Python str.strip: remove leading and trailing whitespace. -/
def stripPy (l : Str) : Str :=
  ((l.dropWhile isPySpace).reverse.dropWhile isPySpace).reverse

/-- Modelled from the spec (§3 ExecutionResult) and the runners' result
dicts: stdout, stderr, exit_code, execution_time. -/
structure ExecResult where
  stdout : Str
  stderr : Str
  exit_code : Int
  execution_time : Rat
deriving DecidableEq, Repr

/-- Modelled from the spec (§3 TestResult) and every constructor call in
test_validator.py: test_id, passed, actual_output (the captured stdout,
when the source passes one), error_message.  Arguments the source omits
are none. -/
structure TestResult where
  test_id : Str
  passed : Bool
  actual_output : Option Str
  error_message : Option Str
deriving DecidableEq, Repr

/-- A Python value sitting in a test case's expected_output stdout slot:
either a string, or a non-string (malformed data) with its truthiness and
the message of the exception that calling .strip() on it raises. -/
inductive PyVal where
  | pstr (s : Str)
  | nonStr (truthy : Bool) (excMsg : Str)
deriving DecidableEq, Repr

/-- The expected_output slot of a test case: a dict with an optional
stdout entry, or some non-dict value (the source then treats the expected
stdout as empty). -/
inductive PyExpected where
  | pdict (stdout : Option PyVal)
  | nonDict
deriving DecidableEq, Repr

/-- A test case as the validator receives it: a dict with optional
test_id and expected_output entries, or a TestCase object carrying both
attributes. -/
inductive PyTestCase where
  | pydict (test_id : Option Str) (expected_output : Option PyExpected)
  | pyobj (test_id : Str) (expected_output : PyExpected)
deriving DecidableEq, Repr

/-- Python truthiness of an expected-stdout value. -/
def pyTruthy : PyVal → Bool
  | .pstr s => !s.isEmpty
  | .nonStr t _ => t

/-- The test_id extraction in validate_test_cases for the i-th case:
test_case.get with an indexed default for dicts, attribute access for
objects. -/
def testIdAt (i : Nat) : PyTestCase → Str
  | .pydict tid _ => tid.getD (txt "test_" ++ natRepr i)
  | .pyobj tid _ => tid

/-- The test_id extraction of validate_single_test (test_validator.py
lines 58-63): dict .get with default, or attribute access. -/
def singleTestId : PyTestCase → Str
  | .pydict tid _ => tid.getD (txt "test_1")
  | .pyobj tid _ => tid

/-- The expected_output extraction of validate_single_test (lines 58-63):
dict .get with default empty dict, or attribute access. -/
def expectedOutputOf : PyTestCase → PyExpected
  | .pydict _ eo => eo.getD (.pdict none)
  | .pyobj _ eo => eo

/-- The expected-stdout extraction (line 66): .get on a dict, empty
string for a non-dict expected_output. -/
def expectedStdoutVal (tc : PyTestCase) : PyVal :=
  match expectedOutputOf tc with
  | .pdict so => so.getD (.pstr [])
  | .nonDict => .pstr []

/-- The try-block body of validate_single_test (test_validator.py lines
56-98).  An .error value is the exception the body raises, carrying
str(e). -/
def validateSingleBody (er : ExecResult) (tc : PyTestCase) : Except Str TestResult :=
  let test_id : Str := singleTestId tc
  let expected_stdout : PyVal := expectedStdoutVal tc
  let actual_stdout := er.stdout
  if pyTruthy expected_stdout then
    match expected_stdout with
    | .pstr es =>
        if stripPy actual_stdout = stripPy es then
          .ok ⟨test_id, true, some actual_stdout, none⟩
        else
          .ok ⟨test_id, false, some actual_stdout,
            some (txt "Expected: \x27" ++ es ++ txt "\x27, Got: \x27" ++
                  actual_stdout ++ txt "\x27")⟩
    | .nonStr _ m => .error m
  else
    if er.exit_code = 0 then
      .ok ⟨test_id, true, some actual_stdout, none⟩
    else
      .ok ⟨test_id, false, some actual_stdout, some (txt "Non-zero exit code")⟩

/-- validate_single_test (test_validator.py lines 49-106): the try-block
body with its except handler, which converts any exception into a failing
TestResult. -/
def validate_single_test (er : ExecResult) (tc : PyTestCase) (_language : Str) : TestResult :=
  match validateSingleBody er tc with
  | .ok r => r
  | .error e =>
      let fid : Str := match tc with
        | .pydict tid _ => tid.getD (txt "test_error")
        | .pyobj _ _ => txt "test_error"
      ⟨fid, false, none, some (txt "Validation error: " ++ e)⟩

/-- validate_test_cases (test_validator.py lines 8-46): on a nonzero exit
code every case fails with the captured stderr; otherwise each case is
validated by validate_single_test. -/
def validate_test_cases (er : ExecResult) (test_cases : List PyTestCase) (language : Str) :
    List TestResult :=
  if er.exit_code ≠ 0 then
    test_cases.enum.map (fun p =>
      ⟨testIdAt p.1 p.2, false, none, some (txt "Execution failed: " ++ er.stderr)⟩)
  else
    test_cases.map (fun tc => validate_single_test er tc language)

/-- Round a / b to the nearest integer, ties to even (a ≥ 0, b > 0). -/
def roundDivNE (a b : Nat) : Nat :=
  let q := a / b
  let r := a % b
  if 2 * r < b then q
  else if b < 2 * r then q + 1
  else if q % 2 = 0 then q else q + 1

/-- Fuel-driven bit-length helper (structural recursion, so the kernel
can evaluate it). -/
def bitLenFuel : Nat → Nat → Nat
  | 0, _ => 0
  | fuel + 1, n => if n = 0 then 0 else bitLenFuel fuel (n / 2) + 1

/-- Number of binary digits of n: for n > 0, 2 ^ (bitLen n - 1) ≤ n < 2 ^ bitLen n. -/
def bitLen (n : Nat) : Nat := bitLenFuel n n

/-- Decide 2 ^ c ≤ p / t by cross-multiplying (p, t > 0). -/
def pow2LeRat (c : Int) (p t : Nat) : Bool :=
  if 0 ≤ c then t * 2 ^ c.toNat ≤ p else t ≤ p * 2 ^ (-c).toNat

/-- A nonnegative dyadic rational m * 2 ^ s: the exact value of an IEEE
binary64 float in the normal range. -/
structure Dyadic where
  m : Nat
  s : Int
deriving DecidableEq, Repr

/-- The binary64 result of dividing p by t (p, t > 0): the exact quotient
rounded to 53 significant bits, nearest, ties to even.  The exponent e
with 2 ^ e ≤ p / t < 2 ^ (e + 1) is located through bit lengths, then the
quotient is scaled so its integer rounding carries 53 bits. -/
def fl53Div (p t : Nat) : Dyadic :=
  let c : Int := (bitLen p : Int) - (bitLen t : Int)
  let e : Int := if pow2LeRat c p t then c else c - 1
  let s : Int := e - 52
  let a : Nat := if 0 ≤ s then p else p * 2 ^ (-s).toNat
  let b : Nat := if 0 ≤ s then t * 2 ^ s.toNat else t
  ⟨roundDivNE a b, s⟩

/-- Round an integer to 53 significant bits, nearest, ties to even. -/
def fl53Nat (n : Nat) : Dyadic :=
  let len := bitLen n
  if len ≤ 53 then ⟨n, 0⟩
  else ⟨roundDivNE n (2 ^ (len - 53)), (len - 53 : Int)⟩

/-- The binary64 product of the float d with the exactly representable
integer k: the exact product rounded to 53 significant bits. -/
def fl53MulNat (d : Dyadic) (k : Nat) : Dyadic :=
  let r := fl53Nat (d.m * k)
  ⟨r.m, d.s + r.s⟩

/-- Python int() on a nonnegative float: truncation toward zero. -/
def truncDyadic (d : Dyadic) : Nat :=
  if 0 ≤ d.s then d.m * 2 ^ d.s.toNat else d.m / 2 ^ (-d.s).toNat

/-- calculate_score (test_validator.py lines 109-125): 0 on an empty
list, else int((passed / total) * 100) with the division and the
multiplication performed in IEEE binary64 floats. -/
def calculate_score (test_results : List TestResult) : Int :=
  if test_results.isEmpty then 0
  else
    let passed : Nat := (test_results.filter (fun r => r.passed)).length
    let total : Nat := test_results.length
    if passed = 0 then 0
    else (truncDyadic (fl53MulNat (fl53Div passed total) 100) : Int)

/-- The number of passed tests, as grading_service.py counts it. -/
def passedCount (trs : List TestResult) : Nat :=
  (trs.filter (fun tr => tr.passed)).length

/-- Python f-string interpolation of an Optional[str]: None prints as the
four characters None. -/
def optMsg : Option Str → Str
  | some m => m
  | none => txt "None"

/-- The failing-test lines accumulated by generate_feedback's loops. -/
def failLines (trs : List TestResult) : Str :=
  trs.foldl (fun acc tr =>
    if tr.passed then acc
    else acc ++ txt "- " ++ tr.test_id ++ txt ": " ++ optMsg tr.error_message ++ txt "\n") []

/-- generate_feedback (grading_service.py lines 86-114). -/
def generate_feedback (test_results : List TestResult) (_score : Int) (passed : Bool) : Str :=
  let total_tests := test_results.length
  let passed_tests := passedCount test_results
  if passed then
    txt "🎉 Great job! You passed all " ++ natRepr passed_tests ++ txt "/" ++
      natRepr total_tests ++ txt " test cases.\n\n" ++
      txt "Your solution is correct. Ready to move on to the next exercise!"
  else if passed_tests = 0 then
    txt "❌ None of the test cases passed (" ++ natRepr passed_tests ++ txt "/" ++
      natRepr total_tests ++ txt ").\n\n" ++
      txt "Let\x27s review the requirements:\n" ++
      failLines test_results ++
      txt "\nTip: Try running your code locally first to see the output."
  else
    txt "⚠️  Some test cases passed (" ++ natRepr passed_tests ++ txt "/" ++
      natRepr total_tests ++ txt "), but not all.\n\n" ++
      txt "Failed tests:\n" ++
      failLines test_results ++
      txt "\nYou\x27re close! Review the failed test cases and try again."

/-- The exercise record as grade_exercise reads it: its test_cases list. -/
structure Exercise where
  test_cases : List PyTestCase
deriving DecidableEq, Repr

/-- The dictionary grade_exercise returns: the early exercise-not-found
shape or the full graded shape. -/
inductive GradeReturn where
  | errorResult (error : Str) (score : Int) (passed : Bool)
  | graded (score : Int) (passed : Bool) (test_results : List TestResult)
      (feedback : Str) (execution_result : ExecResult)
deriving DecidableEq, Repr

/-- grade_exercise (grading_service.py lines 11-83), parameterised over
the database lookup's outcome and over the sandbox execution's result
dict (the database update has no bearing on the returned value). -/
def grade_exercise (exercise : Option Exercise) (execResult : ExecResult)
    (language : Str) : GradeReturn :=
  match exercise with
  | none => .errorResult (txt "Exercise not found") 0 false
  | some ex =>
      let test_results := validate_test_cases execResult ex.test_cases language
      let score := calculate_score test_results
      let passed : Bool := decide (70 ≤ score)
      let feedback := generate_feedback test_results score passed
      .graded score passed test_results feedback execResult

/-- Projection used to state properties of a GradeReturn value. -/
def GradeReturn.scoreOf : GradeReturn → Int
  | .errorResult _ sc _ => sc
  | .graded sc _ _ _ _ => sc

/-- Projection used to state properties of a GradeReturn value. -/
def GradeReturn.passedOf : GradeReturn → Bool
  | .errorResult _ _ p => p
  | .graded _ p _ _ _ => p

/-- Projection used to state properties of a GradeReturn value; the
error shape carries no test results. -/
def GradeReturn.testResultsOf : GradeReturn → List TestResult
  | .errorResult _ _ _ => []
  | .graded _ _ trs _ _ => trs

/-- Projection used to state properties of a GradeReturn value; the
error shape carries no feedback. -/
def GradeReturn.feedbackOf : GradeReturn → Str
  | .errorResult _ _ _ => []
  | .graded _ _ _ fb _ => fb

/-- The output-truncation step both runners apply: clip to maxSize
characters and append the marker when the output is longer. -/
def truncOut (maxSize : Nat) (out : Str) : Str :=
  if maxSize < out.length then out.take maxSize ++ txt "\n... (output truncated)"
  else out

/-- Python timeout or settings.SANDBOX_TIMEOUT: None and 0 are falsy and
fall back to the configured default. -/
def resolveTimeout (timeout : Option Nat) (dflt : Nat) : Nat :=
  match timeout with
  | none => dflt
  | some 0 => dflt
  | some k => k

/-- What the operating system did with a subprocess.run call: completed
with captured output, returncode and elapsed wall time; raised
TimeoutExpired; or raised some other exception with message excMsg. -/
inductive ProcOutcome where
  | completed (stdout : Str) (stderr : Str) (returncode : Int) (elapsed : Rat)
  | timedOut
  | failed (excMsg : Str)
deriving DecidableEq, Repr

/-- SubprocessSandbox execute python path (subprocess_runner.py lines
53-110): truncate both streams on completion; TimeoutExpired maps to exit
code 124 with execution_time equal to the timeout; any other exception
maps to exit code 1. -/
def executePython (maxSize : Nat) (timeout : Nat) (outcome : ProcOutcome) : ExecResult :=
  match outcome with
  | .completed so se rc elapsed => ⟨truncOut maxSize so, truncOut maxSize se, rc, elapsed⟩
  | .timedOut =>
      ⟨[], txt "Execution timed out after " ++ natRepr timeout ++ txt " seconds",
        124, (timeout : Rat)⟩
  | .failed m => ⟨[], txt "Execution error: " ++ m, 1, 0⟩

/-- SubprocessSandbox execute bash path (subprocess_runner.py lines
112-171): identical result handling to the python path. -/
def executeBash (maxSize : Nat) (timeout : Nat) (outcome : ProcOutcome) : ExecResult :=
  match outcome with
  | .completed so se rc elapsed => ⟨truncOut maxSize so, truncOut maxSize se, rc, elapsed⟩
  | .timedOut =>
      ⟨[], txt "Execution timed out after " ++ natRepr timeout ++ txt " seconds",
        124, (timeout : Rat)⟩
  | .failed m => ⟨[], txt "Execution error: " ++ m, 1, 0⟩

/-- SubprocessSandbox.execute_code (subprocess_runner.py lines 22-51):
resolve the timeout, dispatch on language, reject anything that is not
python or bash. -/
def subprocessExecuteCode (maxSize dflt : Nat) (language : Str) (timeoutArg : Option Nat)
    (outcome : ProcOutcome) : ExecResult :=
  let timeout := resolveTimeout timeoutArg dflt
  if language = txt "python" then executePython maxSize timeout outcome
  else if language = txt "bash" then executeBash maxSize timeout outcome
  else ⟨[], txt "Unsupported language: " ++ language, 1, 0⟩

/-- What the Docker API did inside the try block of execute_code: the
container ran to completion (wait returned a status code, logs were
collected); wait raised because the timeout expired; a ContainerError was
raised; or any other exception was raised. -/
inductive DockerOutcome where
  | ran (statusCode : Int) (logs : Str) (elapsed : Rat)
  | containerError (errStdout : Str) (errStderr : Str) (exitStatus : Int) (excStr : Str)
  | waitTimedOut (excMsg : Str)
  | otherError (excMsg : Str)
deriving DecidableEq, Repr

/-- DockerSandbox.execute_code (docker_runner.py lines 24-139): fail fast
without a client; reject unsupported languages; on completion put the
combined log stream in stdout (truncated) with an empty stderr; a
ContainerError is reported untruncated; the wait timeout is caught by the
generic exception handler, exit code 1 and execution_time 0. -/
def dockerExecuteCode (clientAvailable : Bool) (maxSize dflt : Nat) (language : Str)
    (timeoutArg : Option Nat) (outcome : DockerOutcome) : ExecResult :=
  if !clientAvailable then ⟨[], txt "Docker client not available", 1, 0⟩
  else
    let _timeout := resolveTimeout timeoutArg dflt
    if language = txt "python" ∨ language = txt "bash" then
      match outcome with
      | .ran status logs elapsed => ⟨truncOut maxSize logs, [], status, elapsed⟩
      | .containerError so se status estr =>
          ⟨so, (if se.isEmpty then estr else se), status, 0⟩
      | .waitTimedOut m => ⟨[], txt "Execution error: " ++ m, 1, 0⟩
      | .otherError m => ⟨[], txt "Execution error: " ++ m, 1, 0⟩
    else ⟨[], txt "Unsupported language: " ++ language, 1, 0⟩

/-! Helper lemmas shared by the claim theorems. -/

/-- The validator always returns one result per test case. -/
lemma validate_test_cases_length (er : ExecResult) (tcs : List PyTestCase) (lang : Str) :
    (validate_test_cases er tcs lang).length = tcs.length := by
  unfold validate_test_cases
  split
  · simp
  · simp

/-- First character of each feedback template. -/
lemma generate_feedback_take_one (trs : List TestResult) (sc : Int) :
    (generate_feedback trs sc true).take 1 = txt "🎉" ∧
    (passedCount trs = 0 → (generate_feedback trs sc false).take 1 = txt "❌") ∧
    (passedCount trs ≠ 0 → (generate_feedback trs sc false).take 1 = txt "⚠") := by
  refine ⟨rfl, ?_, ?_⟩
  · intro hc
    simp only [generate_feedback, Bool.false_eq_true, if_false, hc, if_pos rfl]
    rfl
  · intro hc
    simp only [generate_feedback, Bool.false_eq_true, if_false, if_neg hc]
    rfl

/-- The congratulatory template appears exactly when the passed flag the
feedback generator receives is true. -/
lemma generate_feedback_congrats_iff (trs : List TestResult) (sc : Int) (p : Bool) :
    (generate_feedback trs sc p).take 1 = txt "🎉" ↔ p = true := by
  obtain ⟨h1, h2, h3⟩ := generate_feedback_take_one trs sc
  cases p
  · by_cases hc : passedCount trs = 0
    · rw [h2 hc]
      decide
    · rw [h3 hc]
      decide
  · rw [h1]
    simp

/-! Claim theorems. -/

/-- C1 counterexample: a Container Backend request whose wait exceeds the
configured timeout (2 seconds here) does not produce the shared timeout
semantics: the generic exception handler yields exit_code 1 and
execution_time 0, not exit_code 124 and execution_time 2. -/
theorem docker_wait_timeout_returns_exit_one :
    (dockerExecuteCode true 1000 10 (txt "python") (some 2)
        (.waitTimedOut (txt "read timed out"))).exit_code = 1 ∧
    (dockerExecuteCode true 1000 10 (txt "python") (some 2)
        (.waitTimedOut (txt "read timed out"))).execution_time = 0 ∧
    (dockerExecuteCode true 1000 10 (txt "python") (some 2)
        (.waitTimedOut (txt "read timed out"))).exit_code ≠ 124 ∧
    (dockerExecuteCode true 1000 10 (txt "python") (some 2)
        (.waitTimedOut (txt "read timed out"))).execution_time ≠ 2 := by
  decide

/-- C1 amended: on timeout the Subprocess Backend (both languages)
returns exit_code 124, empty stdout, a descriptive stderr and
execution_time equal to the configured timeout, while the Container
Backend reports a timed-out wait through its generic exception handler
as exit_code 1, empty stdout and execution_time 0. -/
theorem timeout_semantics_per_backend (maxSize dflt : Nat) (tmo : Option Nat) (m : Str) :
    subprocessExecuteCode maxSize dflt (txt "python") tmo .timedOut =
      ⟨[], txt "Execution timed out after " ++ natRepr (resolveTimeout tmo dflt) ++
        txt " seconds", 124, (resolveTimeout tmo dflt : Rat)⟩ ∧
    subprocessExecuteCode maxSize dflt (txt "bash") tmo .timedOut =
      ⟨[], txt "Execution timed out after " ++ natRepr (resolveTimeout tmo dflt) ++
        txt " seconds", 124, (resolveTimeout tmo dflt : Rat)⟩ ∧
    dockerExecuteCode true maxSize dflt (txt "python") tmo (.waitTimedOut m) =
      ⟨[], txt "Execution error: " ++ m, 1, 0⟩ ∧
    dockerExecuteCode true maxSize dflt (txt "bash") tmo (.waitTimedOut m) =
      ⟨[], txt "Execution error: " ++ m, 1, 0⟩ := by
  refine ⟨rfl, rfl, rfl, rfl⟩

/-- C2: the validator returns exactly one TestResult per TestCase in
order, every result fails when the execution exited nonzero, and the
grading pipeline's test_results list has the exercise's test-case
count. -/
theorem validator_result_counts_match (er : ExecResult) (tcs : List PyTestCase)
    (lang : Str) (ex : Exercise) :
    (validate_test_cases er tcs lang).length = tcs.length ∧
    (er.exit_code ≠ 0 → ∀ r ∈ validate_test_cases er tcs lang, r.passed = false) ∧
    (∀ sc p trs fb er2, grade_exercise (some ex) er lang = .graded sc p trs fb er2 →
      trs.length = ex.test_cases.length) := by
  refine ⟨validate_test_cases_length er tcs lang, ?_, ?_⟩
  · intro h r hr
    unfold validate_test_cases at hr
    rw [if_pos h] at hr
    simp only [List.mem_map] at hr
    obtain ⟨a, -, rfl⟩ := hr
    rfl
  · intro sc p trs fb er2 hg
    simp only [grade_exercise, GradeReturn.graded.injEq] at hg
    obtain ⟨-, -, h3, -, -⟩ := hg
    rw [← h3]
    exact validate_test_cases_length er ex.test_cases lang

/-- C2 witness: a nonzero-exit execution over two test cases yields two
results, both failing. -/
theorem validator_result_counts_match_witness :
    (validate_test_cases ⟨[], txt "boom", 2, 0⟩
      [.pydict none none, .pyobj (txt "a") .nonDict] (txt "python")).length = 2 ∧
    (∀ r ∈ validate_test_cases ⟨[], txt "boom", 2, 0⟩
      [.pydict none none, .pyobj (txt "a") .nonDict] (txt "python"), r.passed = false) := by
  have h := validator_result_counts_match ⟨[], txt "boom", 2, 0⟩
    [.pydict none none, .pyobj (txt "a") .nonDict] (txt "python") ⟨[]⟩
  exact ⟨h.1, h.2.1 (by decide)⟩

/-- C3: with 29 of 50 test results passed, the source's float evaluation
int((29 / 50) * 100) yields 57, while the specified exact value
floor(100 * 29 / 50) is 58: the code deviates from the documented
formula through binary64 rounding. -/
theorem calculate_score_float_slip :
    calculate_score (List.replicate 29 ⟨txt "t", true, none, none⟩ ++
      List.replicate 21 ⟨txt "t", false, none, none⟩) = 57 ∧
    (100 * 29 : Int) / 50 = 58 ∧ (57 : Int) ≠ 58 := by
  decide

/-- C4: on any nonzero exit code every test case yields the same failing
TestResult built from the captured stderr, and the results do not depend
on the captured stdout, so no output comparison happens. -/
theorem nonzero_exit_fails_every_case (er : ExecResult) (tcs : List PyTestCase)
    (lang : Str) (h : er.exit_code ≠ 0) :
    validate_test_cases er tcs lang = tcs.enum.map (fun p =>
      ⟨testIdAt p.1 p.2, false, none, some (txt "Execution failed: " ++ er.stderr)⟩) ∧
    (∀ r ∈ validate_test_cases er tcs lang, r.passed = false ∧
      r.error_message = some (txt "Execution failed: " ++ er.stderr)) ∧
    (∀ so2, validate_test_cases (ExecResult.mk so2 er.stderr er.exit_code er.execution_time)
      tcs lang = validate_test_cases er tcs lang) := by
  refine ⟨?_, ?_, ?_⟩
  · unfold validate_test_cases
    rw [if_pos h]
  · intro r hr
    unfold validate_test_cases at hr
    rw [if_pos h] at hr
    simp only [List.mem_map] at hr
    obtain ⟨a, -, rfl⟩ := hr
    exact ⟨rfl, rfl⟩
  · intro so2
    unfold validate_test_cases
    rw [if_pos h, if_pos h]

/-- C4 witness: a timeout result (exit code 124) fails the single test
case with the stderr message, whatever stdout held. -/
theorem nonzero_exit_fails_every_case_witness :
    validate_test_cases ⟨txt "partial", txt "err", 124, 2⟩
      [.pydict (some (txt "t1")) none] (txt "python") =
    [PyTestCase.pydict (some (txt "t1")) none].enum.map (fun p =>
      ⟨testIdAt p.1 p.2, false, none, some (txt "Execution failed: " ++ txt "err")⟩) := by
  have h := nonzero_exit_fails_every_case ⟨txt "partial", txt "err", 124, 2⟩
    [.pydict (some (txt "t1")) none] (txt "python") (by decide)
  exact h.1

/-- C5: after a clean execution, a test case with a non-empty expected
stdout passes exactly when the trimmed actual stdout equals the trimmed
expected stdout, failing with a message quoting both; a test case whose
expected stdout is empty passes on the clean exit code alone. -/
theorem clean_exit_single_test_semantics (er : ExecResult) (tc : PyTestCase)
    (lang : Str) (h0 : er.exit_code = 0) :
    (∀ es, expectedStdoutVal tc = .pstr es → es ≠ [] →
      validate_single_test er tc lang =
        (if stripPy er.stdout = stripPy es then ⟨singleTestId tc, true, some er.stdout, none⟩
         else ⟨singleTestId tc, false, some er.stdout,
           some (txt "Expected: \x27" ++ es ++ txt "\x27, Got: \x27" ++
             er.stdout ++ txt "\x27")⟩)) ∧
    (expectedStdoutVal tc = .pstr [] →
      validate_single_test er tc lang = ⟨singleTestId tc, true, some er.stdout, none⟩) := by
  constructor
  · intro es hes hne
    unfold validate_single_test validateSingleBody
    rw [hes]
    have ht : pyTruthy (.pstr es) = true := by
      simp [pyTruthy, hne]
    by_cases hs : stripPy er.stdout = stripPy es <;> simp [ht, hs]
  · intro hes
    unfold validate_single_test validateSingleBody
    rw [hes]
    simp [pyTruthy, h0]

/-- C5 witness: expected stdout hi against captured stdout with
surrounding whitespace passes after trimming, and an empty expected
stdout passes on the clean exit. -/
theorem clean_exit_single_test_semantics_witness :
    validate_single_test ⟨txt " hi \n", [], 0, 1⟩
      (.pydict (some (txt "t")) (some (.pdict (some (.pstr (txt "hi"))))))
      (txt "python") =
      (if stripPy (txt " hi \n") = stripPy (txt "hi") then
        ⟨txt "t", true, some (txt " hi \n"), none⟩
       else ⟨txt "t", false, some (txt " hi \n"),
         some (txt "Expected: \x27" ++ txt "hi" ++ txt "\x27, Got: \x27" ++
           txt " hi \n" ++ txt "\x27")⟩) ∧
    validate_single_test ⟨txt " hi \n", [], 0, 1⟩ (.pydict (some (txt "u")) none)
      (txt "python") = ⟨txt "u", true, some (txt " hi \n"), none⟩ := by
  constructor
  · exact (clean_exit_single_test_semantics ⟨txt " hi \n", [], 0, 1⟩
      (.pydict (some (txt "t")) (some (.pdict (some (.pstr (txt "hi"))))))
      (txt "python") (by decide)).1 (txt "hi") (by decide) (by decide)
  · exact (clean_exit_single_test_semantics ⟨txt " hi \n", [], 0, 1⟩
      (.pydict (some (txt "u")) none) (txt "python") (by decide)).2 (by decide)

/-- C6 counterexample: a grading pass where three of four tests pass
reaches score 75, so the pipeline marks it passed and emits the
congratulatory all-passed template even though one test failed. -/
theorem congratulatory_feedback_without_all_passed :
    GradeReturn.scoreOf (grade_exercise (some ⟨[
      .pydict (some (txt "t1")) (some (.pdict (some (.pstr (txt "ok"))))),
      .pydict (some (txt "t2")) (some (.pdict (some (.pstr (txt "ok"))))),
      .pydict (some (txt "t3")) (some (.pdict (some (.pstr (txt "ok"))))),
      .pydict (some (txt "t4")) (some (.pdict (some (.pstr (txt "no")))))]⟩)
      ⟨txt "ok\n", [], 0, 1⟩ (txt "python")) = 75 ∧
    GradeReturn.passedOf (grade_exercise (some ⟨[
      .pydict (some (txt "t1")) (some (.pdict (some (.pstr (txt "ok"))))),
      .pydict (some (txt "t2")) (some (.pdict (some (.pstr (txt "ok"))))),
      .pydict (some (txt "t3")) (some (.pdict (some (.pstr (txt "ok"))))),
      .pydict (some (txt "t4")) (some (.pdict (some (.pstr (txt "no")))))]⟩)
      ⟨txt "ok\n", [], 0, 1⟩ (txt "python")) = true ∧
    (GradeReturn.feedbackOf (grade_exercise (some ⟨[
      .pydict (some (txt "t1")) (some (.pdict (some (.pstr (txt "ok"))))),
      .pydict (some (txt "t2")) (some (.pdict (some (.pstr (txt "ok"))))),
      .pydict (some (txt "t3")) (some (.pdict (some (.pstr (txt "ok"))))),
      .pydict (some (txt "t4")) (some (.pdict (some (.pstr (txt "no")))))]⟩)
      ⟨txt "ok\n", [], 0, 1⟩ (txt "python"))).take 1 = txt "🎉" ∧
    ((GradeReturn.testResultsOf (grade_exercise (some ⟨[
      .pydict (some (txt "t1")) (some (.pdict (some (.pstr (txt "ok"))))),
      .pydict (some (txt "t2")) (some (.pdict (some (.pstr (txt "ok"))))),
      .pydict (some (txt "t3")) (some (.pdict (some (.pstr (txt "ok"))))),
      .pydict (some (txt "t4")) (some (.pdict (some (.pstr (txt "no")))))]⟩)
      ⟨txt "ok\n", [], 0, 1⟩ (txt "python"))).filter (fun r => !r.passed)).length = 1 := by
  decide

/-- C6 amended: the feedback templates are selected by the passed flag
(score at least 70) and the passed count, not by all-tests-passed: the
congratulatory template appears iff passed, the zero-passed template iff
not passed and no test passed, and the partial template iff not passed
and some test passed; the three are mutually exclusive. -/
theorem feedback_template_by_passed_flag (trs : List TestResult) (sc : Int) (p : Bool) :
    ((generate_feedback trs sc p).take 1 = txt "🎉" ↔ p = true) ∧
    ((generate_feedback trs sc p).take 1 = txt "❌" ↔ (p = false ∧ passedCount trs = 0)) ∧
    ((generate_feedback trs sc p).take 1 = txt "⚠" ↔ (p = false ∧ passedCount trs ≠ 0)) := by
  obtain ⟨h1, h2, h3⟩ := generate_feedback_take_one trs sc
  cases p
  · by_cases hc : passedCount trs = 0
    · rw [h2 hc]
      refine ⟨by decide, by simp [hc], by simp [hc]; decide⟩
    · rw [h3 hc]
      refine ⟨by decide, by simp [hc]; decide, by simp [hc]⟩
  · rw [h1]
    refine ⟨by simp, by simp; decide, by simp; decide⟩

/-- C6 amended witness: with no passing results and passed false, the
zero-passed template is selected. -/
theorem feedback_template_by_passed_flag_witness :
    (generate_feedback [⟨txt "t", false, none, none⟩] 0 false).take 1 = txt "❌" ↔
      (false = false ∧ passedCount [⟨txt "t", false, none, none⟩] = 0) :=
  (feedback_template_by_passed_flag [⟨txt "t", false, none, none⟩] 0 false).2.1

/-- C7: every graded result carries passed equal to score at least 70,
its feedback is generated from that same passed value, and the feedback
branch is congratulatory exactly when passed is true. -/
theorem passed_threshold_consistency (ex : Exercise) (er : ExecResult) (lang : Str)
    (sc : Int) (p : Bool) (trs : List TestResult) (fb : Str) (er2 : ExecResult)
    (hg : grade_exercise (some ex) er lang = .graded sc p trs fb er2) :
    p = decide (70 ≤ sc) ∧ sc = calculate_score trs ∧
    fb = generate_feedback trs sc p ∧
    (fb.take 1 = txt "🎉" ↔ p = true) := by
  simp only [grade_exercise, GradeReturn.graded.injEq] at hg
  obtain ⟨h1, h2, h3, h4, -⟩ := hg
  subst h3
  subst h1
  subst h2
  subst h4
  exact ⟨rfl, rfl, rfl, generate_feedback_congrats_iff _ _ _⟩

/-- C7 witness: grading an exercise without test cases gives score 0,
passed false, and the matching feedback. -/
theorem passed_threshold_consistency_witness :
    false = decide (70 ≤ (0 : Int)) ∧
    txt "❌ None of the test cases passed (0/0).\n\nLet\x27s review the requirements:\n\nTip: Try running your code locally first to see the output." =
      generate_feedback [] 0 false := by
  have h := passed_threshold_consistency ⟨[]⟩ ⟨[], [], 0, 0⟩ (txt "python") 0 false []
    (txt "❌ None of the test cases passed (0/0).\n\nLet\x27s review the requirements:\n\nTip: Try running your code locally first to see the output.")
    ⟨[], [], 0, 0⟩ (by decide)
  exact ⟨h.1, h.2.2.1⟩

/-- C8 counterexample: the Container Backend's ContainerError path
returns a stdout longer than max_output_bytes (4 here) without clipping
it or appending the truncation marker. -/
theorem docker_container_error_not_truncated :
    (dockerExecuteCode true 4 10 (txt "python") (some 5)
      (.containerError (txt "aaaaaaaaaa") [] 2 (txt "boom"))).stdout = txt "aaaaaaaaaa" ∧
    4 < (txt "aaaaaaaaaa").length ∧
    (dockerExecuteCode true 4 10 (txt "python") (some 5)
      (.containerError (txt "aaaaaaaaaa") [] 2 (txt "boom"))).stdout ≠
      (txt "aaaaaaaaaa").take 4 ++ txt "\n... (output truncated)" := by
  decide

/-- C8 amended: on the Subprocess Backend's completion paths stdout and
stderr are each truncated independently to max_output_bytes plus the
marker, and the Container Backend truncates stdout the same way on its
successful-completion path only; an over-cap output becomes exactly the
cap plus the marker. -/
theorem output_truncation_per_path (maxSize t : Nat) (so se : Str) (rc : Int) (el : Rat)
    (dflt : Nat) (tmo : Option Nat) (st : Int) (logs : Str) (el2 : Rat) :
    executePython maxSize t (.completed so se rc el) =
      ⟨truncOut maxSize so, truncOut maxSize se, rc, el⟩ ∧
    executeBash maxSize t (.completed so se rc el) =
      ⟨truncOut maxSize so, truncOut maxSize se, rc, el⟩ ∧
    dockerExecuteCode true maxSize dflt (txt "python") tmo (.ran st logs el2) =
      ⟨truncOut maxSize logs, [], st, el2⟩ ∧
    (maxSize < so.length →
      truncOut maxSize so = so.take maxSize ++ txt "\n... (output truncated)" ∧
      (truncOut maxSize so).length = maxSize + (txt "\n... (output truncated)").length) ∧
    (so.length ≤ maxSize → truncOut maxSize so = so) := by
  refine ⟨rfl, rfl, rfl, ?_, ?_⟩
  · intro h
    unfold truncOut
    rw [if_pos h]
    refine ⟨rfl, ?_⟩
    simp [List.length_append, List.length_take, Nat.min_eq_left (Nat.le_of_lt h)]
  · intro h
    unfold truncOut
    rw [if_neg (by omega)]

/-- C8 amended witness: a ten-character stdout against a cap of 4 is
clipped to 4 characters plus the marker. -/
theorem output_truncation_per_path_witness :
    truncOut 4 (txt "aaaaaaaaaa") = (txt "aaaaaaaaaa").take 4 ++
      txt "\n... (output truncated)" ∧
    (truncOut 4 (txt "aaaaaaaaaa")).length = 4 + (txt "\n... (output truncated)").length := by
  have h := output_truncation_per_path 4 10 (txt "aaaaaaaaaa") (txt "e") 0 1 10
    (some 5) 0 (txt "log") 1
  exact h.2.2.2.1 (by decide)

/-- C9: with a clean exit, a malformed test case (non-string truthy
expected stdout, whose strip call raises) yields one failing TestResult
with a validation-error message for that case alone, and every other
test case is validated as if it stood by itself. -/
theorem single_test_fault_isolated (er : ExecResult) (lang : Str)
    (pre post : List PyTestCase) (tid : Option Str) (m : Str) (h : er.exit_code = 0) :
    validate_test_cases er
        (pre ++ PyTestCase.pydict tid (some (.pdict (some (.nonStr true m)))) :: post) lang =
      validate_test_cases er pre lang ++
        validate_single_test er
          (PyTestCase.pydict tid (some (.pdict (some (.nonStr true m))))) lang ::
        validate_test_cases er post lang ∧
    validate_single_test er (PyTestCase.pydict tid (some (.pdict (some (.nonStr true m))))) lang =
      ⟨tid.getD (txt "test_error"), false, none, some (txt "Validation error: " ++ m)⟩ := by
  constructor
  · unfold validate_test_cases
    rw [if_neg (by simp [h]), if_neg (by simp [h]), if_neg (by simp [h])]
    simp [List.map_append]
  · rfl

/-- C9 witness: one malformed case between two well-formed ones fails
alone with the validation-error message while its neighbours are
validated normally. -/
theorem single_test_fault_isolated_witness :
    validate_test_cases ⟨txt "out", [], 0, 1⟩
        ([.pydict (some (txt "a")) none] ++
          PyTestCase.pydict (some (txt "bad")) (some (.pdict (some (.nonStr true (txt "strip failure"))))) ::
          [.pyobj (txt "b") .nonDict]) (txt "python") =
      validate_test_cases ⟨txt "out", [], 0, 1⟩ [.pydict (some (txt "a")) none] (txt "python") ++
        validate_single_test ⟨txt "out", [], 0, 1⟩
          (PyTestCase.pydict (some (txt "bad")) (some (.pdict (some (.nonStr true (txt "strip failure")))))) (txt "python") ::
        validate_test_cases ⟨txt "out", [], 0, 1⟩ [.pyobj (txt "b") .nonDict] (txt "python") ∧
    validate_single_test ⟨txt "out", [], 0, 1⟩
        (PyTestCase.pydict (some (txt "bad")) (some (.pdict (some (.nonStr true (txt "strip failure")))))) (txt "python") =
      ⟨(some (txt "bad")).getD (txt "test_error"), false, none,
        some (txt "Validation error: " ++ txt "strip failure")⟩ :=
  single_test_fault_isolated ⟨txt "out", [], 0, 1⟩ (txt "python")
    [.pydict (some (txt "a")) none] [.pyobj (txt "b") .nonDict]
    (some (txt "bad")) (txt "strip failure") (by decide)

/-- C10: on the Container Backend's successful-completion path the
combined log stream is placed (truncated) in stdout and the returned
stderr is always the empty string, for both supported languages. -/
theorem docker_success_combined_stream (maxSize dflt : Nat) (tmo : Option Nat)
    (st : Int) (logs : Str) (el : Rat) :
    dockerExecuteCode true maxSize dflt (txt "python") tmo (.ran st logs el) =
      ⟨truncOut maxSize logs, [], st, el⟩ ∧
    dockerExecuteCode true maxSize dflt (txt "bash") tmo (.ran st logs el) =
      ⟨truncOut maxSize logs, [], st, el⟩ := by
  refine ⟨rfl, rfl⟩
